import Mathlib

/-!
Shallow embedding of `src/contract/transaction.rs` from ethcontract-rs:
the transaction builder, the preparation pipeline (`PrepareFuture`) and the
two-state execution machine (`ExecutionState::poll_with_send`).

Futures are collapsed to their single-poll outcome (`Poll`), the JSON-RPC
node is a table of responses (`Node`), and the pipeline additionally returns
the list of RPC queries it issues, mirroring the eager construction of
`CompatCallFuture`s in `PrepareFuture::from_builder`.  Rust strings are
modelled as `List Char`; `U256` values carry no arithmetic here and are
modelled as `Nat`.
-/

set_option maxHeartbeats 1000000

namespace Ethtx

/-- Ethereum address (`web3::types::Address`), modelled as a natural number. -/
abbrev Address := Nat

/-- 256-bit unsigned integer (`web3::types::U256`); the code performs no
arithmetic on these values, so they are modelled as natural numbers. -/
abbrev U256 := Nat

/-- Opaque byte string (`web3::types::Bytes`). -/
abbrev Bytes := List Nat

/-- Modelled from the spec: `ethsign::SecretKey` is an external collaborator
(cryptographic signing and ECDSA key handling are out of scope), so a key is
modelled by the sender address derived from it, i.e. the result of
`key.public().address()`. -/
structure SecretKey where
  addr : Address
deriving DecidableEq

/-- Modelled from the spec: an opaque transport/RPC error surfaced verbatim
by the underlying `web3` collaborator. -/
structure Web3Error where
  code : Nat
deriving DecidableEq

instance [DecidableEq ε] [DecidableEq α] : DecidableEq (Except ε α) := fun a b =>
  match a, b with
  | .error x, .error y =>
    if h : x = y then .isTrue (by rw [h])
    else .isFalse (fun hh => h (by cases hh; rfl))
  | .ok x, .ok y =>
    if h : x = y then .isTrue (by rw [h])
    else .isFalse (fun hh => h (by cases hh; rfl))
  | .error _, .ok _ => .isFalse (fun hh => Except.noConfusion hh)
  | .ok _, .error _ => .isFalse (fun hh => Except.noConfusion hh)

/-- Outcome of polling a future once (`std::task::Poll`). -/
inductive Poll (α : Type) where
  | pending
  | ready (val : α)
deriving DecidableEq

/-- A `CompatCallFuture<T, α>` collapsed to its single-poll outcome. -/
abbrev CallFuture (α : Type) := Poll (Except Web3Error α)

/-- Condition on transaction delivery (`web3::types::TransactionCondition`). -/
inductive TransactionCondition where
  | block (n : Nat)
  | time (n : Nat)
deriving DecidableEq

/-- Structured transaction request (`web3::types::TransactionRequest`); the
`from` and `to` fields are renamed `fromAddr` and `toAddr` because `from` and `to` are Lean keywords. -/
structure TransactionRequest where
  fromAddr : Address
  toAddr : Option Address
  gas : Option U256
  gas_price : Option U256
  value : Option U256
  data : Option Bytes
  nonce : Option U256
  condition : Option TransactionCondition
deriving DecidableEq

/-- Call request used for gas estimation (`web3::types::CallRequest`). -/
structure CallRequest where
  fromAddr : Option Address
  toAddr : Address
  gas : Option U256
  gas_price : Option U256
  value : Option U256
  data : Option Bytes
deriving DecidableEq

/-- The RPC read queries the preparation pipeline can issue
(`eth_accounts`, `eth_estimateGas`, `eth_gasPrice`,
`eth_getTransactionCount`, `net_version`). -/
inductive Query where
  | accounts
  | estimateGas (call : CallRequest)
  | gasPrice
  | transactionCount (addr : Address)
  | netVersion
deriving DecidableEq

/-- The remote node, as a table of responses: one collapsed call future per
query kind.  This stands for the `Web3<T>` handle held by the builder. -/
structure Node where
  accounts : CallFuture (List Address)
  estimateGas : CallRequest → CallFuture U256
  gasPrice : CallFuture U256
  transactionCount : Address → CallFuture U256
  version : CallFuture (List Char)

/-- How the transaction should be signed (`Sign` in the source). -/
inductive Sign where
  | Local (addr : Address) (condition : Option TransactionCondition)
  | Offline (key : SecretKey) (chain_id : Option Nat)
deriving DecidableEq

/-- Data used for building a contract transaction (`TransactionBuilder<T>`). -/
structure TransactionBuilder where
  web3 : Node
  address : Address
  data : Bytes
  sign : Option Sign
  gas : Option U256
  gas_price : Option U256
  value : Option U256
  nonce : Option U256

/-- Creates a new builder for a contract transaction
(`TransactionBuilder::new`). -/
def TransactionBuilder.new (web3 : Node) (address : Address) (data : Bytes) :
    TransactionBuilder :=
  { web3, address, data, gas := none, gas_price := none, value := none,
    nonce := none, sign := none }

/-- Specify the signing method (`TransactionBuilder::sign`; renamed `setSign`
because the Rust method shares its name with the field it sets). -/
def TransactionBuilder.setSign (b : TransactionBuilder) (v : Sign) :
    TransactionBuilder :=
  { b with sign := some v }

/-- Specify the amount of gas to use (`TransactionBuilder::gas`). -/
def TransactionBuilder.setGas (b : TransactionBuilder) (v : U256) :
    TransactionBuilder :=
  { b with gas := some v }

/-- Specify the gas price to use (`TransactionBuilder::gas_price`). -/
def TransactionBuilder.setGasPrice (b : TransactionBuilder) (v : U256) :
    TransactionBuilder :=
  { b with gas_price := some v }

/-- Specify how much ETH to transfer (`TransactionBuilder::value`). -/
def TransactionBuilder.setValue (b : TransactionBuilder) (v : U256) :
    TransactionBuilder :=
  { b with value := some v }

/-- Specify the nonce for the transaction (`TransactionBuilder::nonce`). -/
def TransactionBuilder.setNonce (b : TransactionBuilder) (v : U256) :
    TransactionBuilder :=
  { b with nonce := some v }

/-- Modelled from the spec: `crate::future::MaybeReady` (not under `src/`),
the parameter resolver that "either returns an already-known value
immediately or issues exactly one asynchronous query to obtain it". -/
inductive MaybeReady (α : Type) where
  | ready (val : α)
  | future (fut : CallFuture α)
deriving DecidableEq

/-- Poll a `MaybeReady` once: a ready value completes with `Ok`, a pending
query yields the underlying call future's outcome. -/
def pollMaybe : MaybeReady α → CallFuture α
  | .ready v => .ready (.ok v)
  | .future f => f

/-- The `maybe!` macro of `PrepareFuture::from_builder`: use the caller's
value when present, otherwise issue the given query.  Also records the
query issued, since `CompatCallFuture` construction sends the request. -/
def maybeParam (o : Option α) (q : Query) (f : CallFuture α) :
    MaybeReady α × List Query :=
  match o with
  | some v => (.ready v, [])
  | none => (.future f, [q])

/-- Modelled from the spec: the transaction record of `crate::sign` (not
under `src/`) into which the four resolved parameters plus sender, target,
value and call data are assembled. -/
structure TransactionData where
  nonce : U256
  gas_price : U256
  gas : U256
  toAddr : Address
  value : U256
  data : Bytes
deriving DecidableEq

/-- Modelled from the spec: the signed raw payload.  Signing is an external
collaborator, so the payload is modelled as the exact information that
determines it — the transaction record, the chain id mixed into the
signature, and the signing key — making decoding a projection. -/
structure RawBytes where
  tx : TransactionData
  chainId : Nat
  key : SecretKey
deriving DecidableEq

/-- Represents either a structured or raw transaction request (`Request`). -/
inductive Request where
  | Tx (request : TransactionRequest)
  | Raw (raw : RawBytes)
deriving DecidableEq

/-- Errors surfaced by execution (`crate::contract::errors::ExecutionError`,
not under `src/`).  Modelled from the spec: transport/RPC errors, the
chain-id parse error, and signing errors are distinct variants. -/
inductive ExecutionError where
  | web3 (e : Web3Error)
  | parse (s : List Char)
  | sign
deriving DecidableEq

/-- Modelled from the spec: `TransactionData::sign` of `crate::sign` (not
under `src/`) — deterministic signing of the record with the key and chain
id; key material in this model is always valid, so signing succeeds. -/
def TransactionData.sign (tx : TransactionData) (key : SecretKey)
    (chain_id : Option Nat) : Except ExecutionError RawBytes :=
  .ok ⟨tx, chain_id.getD 0, key⟩

/-- Decimal digits of `n`, least significant first, with explicit fuel so
the definition is structural (the fuel is an upper bound on `n`). -/
def digitsRevAux : Nat → Nat → List Nat
  | 0, n => [n]
  | fuel + 1, n => if n < 10 then [n] else n % 10 :: digitsRevAux fuel (n / 10)

/-- Decimal digits of `n`, least significant first. -/
def digitsRev (n : Nat) : List Nat :=
  digitsRevAux n n

/-- Rust's `u64::to_string`: the decimal representation, most significant
digit first. -/
def u64ToChars (n : Nat) : List Char :=
  (digitsRev n).reverse.map fun d => Char.ofNat (48 + d)

/-- Numeric value of a decimal digit character. -/
def digitVal (c : Char) : Nat :=
  c.toNat - 48

/-- Rust's `str::parse::<u64>`: optional leading `+`, then one or more
decimal digits, rejecting values that overflow 64 bits. -/
def parseU64 (s : List Char) : Option Nat :=
  let t := if s.head? = some '+' then s.tail else s
  if t.isEmpty then none
  else if t.all Char.isDigit then
    let n := t.foldl (fun a c => a * 10 + digitVal c) 0
    if n < 2 ^ 64 then some n else none
  else none

/-- Internal future for preparing a transaction (`PrepareFuture<T>`).  The
`Raw` state stores the four `MaybeReady` parameter resolvers joined at poll
time, exactly the operands of `future::try_join4` in the source. -/
inductive PrepareFuture where
  | TxDefaultAccount (request : TransactionRequest)
      (inner : CallFuture (List Address))
  | Tx (request : TransactionRequest)
  | Raw (key : SecretKey) (address : Address) (value : U256) (data : Bytes)
      (gas : MaybeReady U256) (gas_price : MaybeReady U256)
      (nonce : MaybeReady U256) (chain_id : MaybeReady (List Char))

/-- Create a `PrepareFuture` from a `TransactionBuilder`
(`PrepareFuture::from_builder`), together with the list of RPC queries
issued by constructing it. -/
def fromBuilder (builder : TransactionBuilder) : PrepareFuture × List Query :=
  match builder.sign with
  | none =>
    (.TxDefaultAccount
      { fromAddr := 0
        toAddr := some builder.address
        gas := builder.gas
        gas_price := builder.gas_price
        value := builder.value
        data := some builder.data
        nonce := builder.nonce
        condition := none }
      builder.web3.accounts,
     [.accounts])
  | some (.Local fromAddr condition) =>
    (.Tx
      { fromAddr
        toAddr := some builder.address
        gas := builder.gas
        gas_price := builder.gas_price
        value := builder.value
        data := some builder.data
        nonce := builder.nonce
        condition },
     [])
  | some (.Offline key chain_id) =>
    let fromA := key.addr
    let call : CallRequest :=
      { fromAddr := some fromA
        toAddr := builder.address
        gas := none
        gas_price := none
        value := builder.value
        data := some builder.data }
    let gas := maybeParam builder.gas (.estimateGas call)
      (builder.web3.estimateGas call)
    let gas_price := maybeParam builder.gas_price .gasPrice
      builder.web3.gasPrice
    let nonce := maybeParam builder.nonce (.transactionCount fromA)
      (builder.web3.transactionCount fromA)
    let chain_id := maybeParam (chain_id.map u64ToChars) .netVersion
      builder.web3.version
    (.Raw key builder.address (builder.value.getD 0) builder.data
       gas.1 gas_price.1 nonce.1 chain_id.1,
     gas.2 ++ gas_price.2 ++ nonce.2 ++ chain_id.2)

/-- First transport error among a call future's current outcomes, if any. -/
def pollErr : CallFuture α → Option Web3Error
  | .ready (.error e) => some e
  | _ => none

/-- One poll of `future::try_join4`: ready with the tuple once all four are
ready with `Ok`, ready with the first error (in polling order) as soon as
one has failed, pending otherwise. -/
def joinPoll (pa : CallFuture α) (pb : CallFuture β) (pc : CallFuture γ)
    (pd : CallFuture δ) : Poll (Except Web3Error (α × β × γ × δ)) :=
  match pa, pb, pc, pd with
  | .ready (.ok a), .ready (.ok b), .ready (.ok c), .ready (.ok d) =>
    .ready (.ok (a, b, c, d))
  | _, _, _, _ =>
    match pollErr pa <|> pollErr pb <|> pollErr pc <|> pollErr pd with
    | some e => .ready (.error e)
    | none => .pending

/-- The body of the `PrepareFuture::Raw` poll arm: once the joined
parameters are available, parse the chain id, assemble the transaction
record and sign it. -/
def assembleRaw (key : SecretKey) (address : Address) (value : U256)
    (data : Bytes)
    (j : Poll (Except Web3Error (U256 × U256 × U256 × List Char))) :
    Poll (Except ExecutionError Request) :=
  match j with
  | .pending => .pending
  | .ready (.error e) => .ready (.error (.web3 e))
  | .ready (.ok (gas, gas_price, nonce, chain_id)) =>
    match parseU64 chain_id with
    | none => .ready (.error (.parse chain_id))
    | some cid =>
      match TransactionData.sign ⟨nonce, gas_price, gas, address, value, data⟩
          key (some cid) with
      | .error e => .ready (.error e)
      | .ok raw => .ready (.ok (.Raw raw))

/-- One poll of `PrepareFuture` (`impl Future for PrepareFuture::poll`). -/
def pollPrepare : PrepareFuture → Poll (Except ExecutionError Request)
  | .TxDefaultAccount request inner =>
    match inner with
    | .pending => .pending
    | .ready (.error e) => .ready (.error (.web3 e))
    | .ready (.ok accounts) =>
      let request :=
        match accounts.head? with
        | some a => { request with fromAddr := a }
        | none => request
      .ready (.ok (.Tx request))
  | .Tx request => .ready (.ok (.Tx request))
  | .Raw key address value data gas gas_price nonce chain_id =>
    assembleRaw key address value data
      (joinPoll (pollMaybe gas) (pollMaybe gas_price) (pollMaybe nonce)
        (pollMaybe chain_id))

/-- A terminal send future collapsed to its single-poll outcome (the `F`
of `ExecutionState`, with its error already mapped into `ExecutionError`). -/
abbrev SendF (β : Type) := Poll (Except ExecutionError β)

/-- Internal execution state for transaction futures (`ExecutionState`). -/
inductive ExecutionState (β : Type) where
  | Prepare (prepare : PrepareFuture) (web3 : Node)
  | Send (send : SendF β)

/-- One poll of `ExecutionState::poll_with_send`: while preparing, poll the
pipeline; on success build the send future with `send_fn` and poll it in
the same invocation; on failure return the error immediately. -/
def pollWithSend (s : ExecutionState β) (sendFn : Node → Request → SendF β) :
    Poll (Except ExecutionError β) × ExecutionState β :=
  match s with
  | .Prepare p w =>
    match pollPrepare p with
    | .pending => (.pending, .Prepare p w)
    | .ready (.error e) => (.ready (.error e), .Prepare p w)
    | .ready (.ok tx) => (sendFn w tx, .Send (sendFn w tx))
  | .Send f => (f, .Send f)

/-- A sample node used to instantiate the theorems at concrete inputs. -/
def node0 : Node :=
  { accounts := .ready (.ok [0x111])
    estimateGas := fun _ => .ready (.ok 21000)
    gasPrice := .ready (.ok 9)
    transactionCount := fun _ => .ready (.ok 7)
    version := .ready (.ok ['3']) }

/-- A sample builder targeting address `0xABC` with call data `[1, 2, 3]`. -/
def builder0 : TransactionBuilder :=
  TransactionBuilder.new node0 0xABC [1, 2, 3]

/-- A sample signing key whose derived sender address is `0x777`. -/
def keyA : SecretKey := ⟨0x777⟩

/-- Offline configuration with gas, gas price, nonce and chain id supplied. -/
def bOfflineFull : TransactionBuilder :=
  (((builder0.setSign (.Offline keyA (some 1))).setGas 21000).setGasPrice
      1000000000).setNonce 5

/-- Offline configuration missing only the gas. -/
def bOfflineNoGas : TransactionBuilder :=
  ((builder0.setSign (.Offline keyA (some 1))).setGasPrice 2).setNonce 5

/-- Offline configuration missing only the gas price. -/
def bOfflineNoPrice : TransactionBuilder :=
  ((builder0.setSign (.Offline keyA (some 1))).setGas 21000).setNonce 5

/-- Offline configuration missing only the nonce. -/
def bOfflineNoNonce : TransactionBuilder :=
  ((builder0.setSign (.Offline keyA (some 1))).setGas 21000).setGasPrice 2

/-- Offline configuration missing only the chain id. -/
def bOfflineNoChain : TransactionBuilder :=
  (((builder0.setSign (.Offline keyA none)).setGas 21000).setGasPrice
      2).setNonce 5

/-- Explicit-account (node-signed) configuration. -/
def bLocal : TransactionBuilder :=
  builder0.setSign (.Local 0x222 none)

/-- A node all of whose queries are still pending. -/
def node1 : Node :=
  { accounts := .pending
    estimateGas := fun _ => .pending
    gasPrice := .pending
    transactionCount := fun _ => .pending
    version := .pending }

/-- The fully specified offline configuration again, against a different
node: preparation must not depend on it. -/
def bOfflineFull2 : TransactionBuilder :=
  { bOfflineFull with web3 := node1 }

/-- The string `"not-a-number"` of scenario C. -/
def notNum : List Char :=
  ['n', 'o', 't', '-', 'a', '-', 'n', 'u', 'm', 'b', 'e', 'r']

/-- A node whose network-version query returns an unparseable string. -/
def nodeBadVersion : Node :=
  { node0 with version := .ready (.ok notNum) }

/-- Offline configuration with chain id omitted whose node reports an
unparseable network version. -/
def bOfflineBadChain : TransactionBuilder :=
  { bOfflineNoChain with web3 := nodeBadVersion }

/-- A prepare future that is immediately ready with a structured request. -/
def pTx : PrepareFuture :=
  .Tx ⟨0, none, none, none, none, none, none, none⟩

/-- A prepare future whose account-list query has failed. -/
def pErr : PrepareFuture :=
  .TxDefaultAccount ⟨0, none, none, none, none, none, none, none⟩
    (.ready (.error ⟨3⟩))

/-- A terminal send function that immediately succeeds with `42`. -/
def sendOk : Node → Request → SendF Nat :=
  fun _ _ => .ready (.ok 42)

/-! ### Decimal printing and parsing round trip -/

theorem digitsRevAux_ne_nil (fuel n : Nat) : digitsRevAux fuel n ≠ [] := by
  cases fuel with
  | zero => simp [digitsRevAux]
  | succ f => by_cases h : n < 10 <;> simp [digitsRevAux, h]

theorem digitsRevAux_lt_ten (fuel : Nat) :
    ∀ n, n ≤ fuel → ∀ d ∈ digitsRevAux fuel n, d < 10 := by
  induction fuel with
  | zero =>
    intro n hn d hd
    simp [digitsRevAux] at hd
    omega
  | succ f ih =>
    intro n hn d hd
    by_cases h : n < 10
    · simp [digitsRevAux, h] at hd
      omega
    · simp [digitsRevAux, h] at hd
      rcases hd with hd | hd
      · omega
      · exact ih (n / 10) (by omega) d hd

theorem foldl_digitsRevAux (fuel : Nat) :
    ∀ n acc, n ≤ fuel →
      ((digitsRevAux fuel n).reverse).foldl (fun a d => a * 10 + d) acc
        = acc * 10 ^ (digitsRevAux fuel n).length + n := by
  induction fuel with
  | zero =>
    intro n acc hn
    have h0 : n = 0 := by omega
    subst h0
    simp [digitsRevAux]
  | succ f ih =>
    intro n acc hn
    by_cases h : n < 10
    · simp [digitsRevAux, h]
    · have hfold := ih (n / 10) acc (by omega)
      simp only [digitsRevAux, if_neg h, List.reverse_cons, List.foldl_append,
        List.length_cons, List.foldl_cons, List.foldl_nil]
      rw [hfold, pow_succ, ← mul_assoc]
      generalize acc * 10 ^ (digitsRevAux f (n / 10)).length = u
      omega

theorem digitChar_isDigit (d : Nat) (hd : d < 10) :
    (Char.ofNat (48 + d)).isDigit = true := by
  interval_cases d <;> decide

theorem digitChar_val (d : Nat) (hd : d < 10) :
    digitVal (Char.ofNat (48 + d)) = d := by
  interval_cases d <;> decide

theorem digitChar_ne_plus (d : Nat) (hd : d < 10) :
    Char.ofNat (48 + d) ≠ '+' := by
  interval_cases d <;> decide

theorem foldl_map_digitChar (l : List Nat) :
    ∀ acc, (∀ d ∈ l, d < 10) →
      ((l.map fun d => Char.ofNat (48 + d)).foldl
          (fun a c => a * 10 + digitVal c) acc)
        = l.foldl (fun a d => a * 10 + d) acc := by
  induction l with
  | nil => intro acc _; rfl
  | cons x xs ih =>
    intro acc hl
    have hx : x < 10 := hl x (List.mem_cons_self x xs)
    simp only [List.map_cons, List.foldl_cons, digitChar_val x hx]
    exact ih _ (fun d hd => hl d (List.mem_cons_of_mem x hd))

theorem u64ToChars_mem (n : Nat) :
    ∀ c ∈ u64ToChars n, c.isDigit = true ∧ c ≠ '+' := by
  intro c hc
  simp only [u64ToChars, digitsRev, List.mem_map, List.mem_reverse] at hc
  obtain ⟨d, hd, rfl⟩ := hc
  have hlt : d < 10 := digitsRevAux_lt_ten n n le_rfl d hd
  exact ⟨digitChar_isDigit d hlt, digitChar_ne_plus d hlt⟩

theorem u64ToChars_ne_nil (n : Nat) : u64ToChars n ≠ [] := by
  have h := digitsRevAux_ne_nil n n
  simp only [u64ToChars, digitsRev, ne_eq, List.map_eq_nil_iff,
    List.reverse_eq_nil_iff]
  exact h

theorem foldl_u64ToChars (n : Nat) :
    (u64ToChars n).foldl (fun a c => a * 10 + digitVal c) 0 = n := by
  unfold u64ToChars digitsRev
  rw [foldl_map_digitChar _ 0
        (fun d hd => digitsRevAux_lt_ten n n le_rfl d (List.mem_reverse.mp hd))]
  have h := foldl_digitsRevAux n n 0 le_rfl
  simpa using h

theorem parseU64_u64ToChars (n : Nat) (h : n < 2 ^ 64) :
    parseU64 (u64ToChars n) = some n := by
  obtain ⟨c, cs, hl⟩ : ∃ c cs, u64ToChars n = c :: cs := by
    rcases hcase : u64ToChars n with _ | ⟨c, cs⟩
    · exact absurd hcase (u64ToChars_ne_nil n)
    · exact ⟨c, cs, rfl⟩
  have hcp : c ≠ '+' := (u64ToChars_mem n c (hl ▸ List.mem_cons_self c cs)).2
  have hall : (c :: cs).all Char.isDigit = true := by
    rw [← hl]
    exact List.all_eq_true.mpr fun x hx => (u64ToChars_mem n x hx).1
  have hfold := foldl_u64ToChars n
  rw [hl] at hfold
  unfold parseU64
  rw [hl]
  rw [if_neg (show ¬(List.head? (c :: cs) = some '+') by simpa using hcp)]
  have h' : n < 18446744073709551616 := by omega
  simp [hall, hfold, h']


/-! ### Join combinator lemmas -/

theorem joinPoll_ready_ok (a : α) (b : β) (c : γ) (d : δ) :
    joinPoll (.ready (.ok a)) (.ready (.ok b)) (.ready (.ok c))
        (.ready (.ok d))
      = .ready (.ok (a, b, c, d)) := rfl

theorem joinPoll_fourth_ok (pa : CallFuture α) (pb : CallFuture β)
    (pc : CallFuture γ) (s : δ) (a : α) (b : β) (c : γ) (d : δ)
    (h : joinPoll pa pb pc (.ready (.ok s)) = .ready (.ok (a, b, c, d))) :
    d = s := by
  rcases pa with _ | ⟨ea | a'⟩ <;> rcases pb with _ | ⟨eb | b'⟩ <;>
    rcases pc with _ | ⟨ec | c'⟩ <;> simp_all [joinPoll, pollErr]

/-! ### Claim theorems -/

/-- C1: for an offline configuration with gas, gas price, nonce and chain id
all caller-supplied, preparation issues zero network queries and yields a
`Raw` request whose decoded fields are exactly the supplied nonce, gas
price, gas and chain id, with `to` the builder's target address, `data` the
builder's call data, and `value` the supplied value or 0 when absent. -/
theorem offline_fully_specified (b : TransactionBuilder) (key : SecretKey)
    (cid g gp n : Nat)
    (hcid : cid < 2 ^ 64)
    (hs : b.sign = some (.Offline key (some cid)))
    (hg : b.gas = some g) (hgp : b.gas_price = some gp)
    (hn : b.nonce = some n) :
    (fromBuilder b).2 = [] ∧
      pollPrepare (fromBuilder b).1
        = .ready (.ok (.Raw ⟨⟨n, gp, g, b.address, b.value.getD 0, b.data⟩,
            cid, key⟩)) := by
  constructor
  · simp [fromBuilder, hs, hg, hgp, hn, maybeParam]
  · simp [fromBuilder, hs, hg, hgp, hn, maybeParam, pollPrepare, pollMaybe,
      joinPoll_ready_ok, assembleRaw, parseU64_u64ToChars cid hcid,
      TransactionData.sign]

/-- C1 witness: scenario B at a concrete builder. -/
theorem offline_fully_specified_witness :
    (1 : Nat) < 2 ^ 64 ∧ bOfflineFull.sign = some (.Offline keyA (some 1)) ∧
      bOfflineFull.gas = some 21000 ∧
      bOfflineFull.gas_price = some 1000000000 ∧
      bOfflineFull.nonce = some 5 ∧
      ((fromBuilder bOfflineFull).2 = [] ∧
        pollPrepare (fromBuilder bOfflineFull).1
          = .ready (.ok (.Raw ⟨⟨5, 1000000000, 21000, bOfflineFull.address,
              bOfflineFull.value.getD 0, bOfflineFull.data⟩, 1, keyA⟩))) :=
  ⟨by decide, rfl, rfl, rfl, rfl,
    offline_fully_specified bOfflineFull keyA 1 21000 1000000000 5
      (by decide) rfl rfl rfl rfl⟩

/-- C2: for an offline configuration missing exactly one of gas, gas price,
nonce and chain id, preparation issues exactly the single query for the
missing field and none for the other three. -/
theorem offline_one_missing_query (b : TransactionBuilder) (key : SecretKey)
    (chain_id : Option Nat)
    (hs : b.sign = some (.Offline key chain_id)) :
    ((b.gas = none ∧ b.gas_price ≠ none ∧ b.nonce ≠ none ∧ chain_id ≠ none) →
       (fromBuilder b).2
         = [.estimateGas ⟨some key.addr, b.address, none, none, b.value,
             some b.data⟩]) ∧
    ((b.gas ≠ none ∧ b.gas_price = none ∧ b.nonce ≠ none ∧ chain_id ≠ none) →
       (fromBuilder b).2 = [.gasPrice]) ∧
    ((b.gas ≠ none ∧ b.gas_price ≠ none ∧ b.nonce = none ∧ chain_id ≠ none) →
       (fromBuilder b).2 = [.transactionCount key.addr]) ∧
    ((b.gas ≠ none ∧ b.gas_price ≠ none ∧ b.nonce ≠ none ∧ chain_id = none) →
       (fromBuilder b).2 = [.netVersion]) := by
  refine ⟨?_, ?_, ?_, ?_⟩ <;> rintro ⟨h1, h2, h3, h4⟩
  · obtain ⟨gp, hgp⟩ := Option.ne_none_iff_exists'.mp h2
    obtain ⟨n, hn⟩ := Option.ne_none_iff_exists'.mp h3
    obtain ⟨cid, hc⟩ := Option.ne_none_iff_exists'.mp h4
    simp [fromBuilder, hs, h1, hgp, hn, hc, maybeParam]
  · obtain ⟨g, hg⟩ := Option.ne_none_iff_exists'.mp h1
    obtain ⟨n, hn⟩ := Option.ne_none_iff_exists'.mp h3
    obtain ⟨cid, hc⟩ := Option.ne_none_iff_exists'.mp h4
    simp [fromBuilder, hs, hg, h2, hn, hc, maybeParam]
  · obtain ⟨g, hg⟩ := Option.ne_none_iff_exists'.mp h1
    obtain ⟨gp, hgp⟩ := Option.ne_none_iff_exists'.mp h2
    obtain ⟨cid, hc⟩ := Option.ne_none_iff_exists'.mp h4
    simp [fromBuilder, hs, hg, hgp, h3, hc, maybeParam]
  · obtain ⟨g, hg⟩ := Option.ne_none_iff_exists'.mp h1
    obtain ⟨gp, hgp⟩ := Option.ne_none_iff_exists'.mp h2
    obtain ⟨n, hn⟩ := Option.ne_none_iff_exists'.mp h3
    simp [fromBuilder, hs, hg, hgp, hn, h4, maybeParam]

/-- C2 witness: the four one-missing configurations at concrete builders. -/
theorem offline_one_missing_query_witness :
    (fromBuilder bOfflineNoGas).2
        = [.estimateGas ⟨some keyA.addr, bOfflineNoGas.address, none, none,
            bOfflineNoGas.value, some bOfflineNoGas.data⟩] ∧
      (fromBuilder bOfflineNoPrice).2 = [.gasPrice] ∧
      (fromBuilder bOfflineNoNonce).2 = [.transactionCount keyA.addr] ∧
      (fromBuilder bOfflineNoChain).2 = [.netVersion] :=
  ⟨(offline_one_missing_query bOfflineNoGas keyA (some 1) rfl).1
      ⟨rfl, by decide, by decide, by decide⟩,
    (offline_one_missing_query bOfflineNoPrice keyA (some 1) rfl).2.1
      ⟨by decide, rfl, by decide, by decide⟩,
    (offline_one_missing_query bOfflineNoNonce keyA (some 1) rfl).2.2.1
      ⟨by decide, by decide, rfl, by decide⟩,
    (offline_one_missing_query bOfflineNoChain keyA none rfl).2.2.2
      ⟨by decide, by decide, by decide, rfl⟩⟩

/-- C3: with node-signing for an explicit account, preparation issues no
network query and produces the `Structured` request synchronously on the
first poll, from the already-known fields. -/
theorem local_sign_no_query (b : TransactionBuilder) (fromA : Address)
    (condition : Option TransactionCondition)
    (hs : b.sign = some (.Local fromA condition)) :
    (fromBuilder b).2 = [] ∧
      pollPrepare (fromBuilder b).1
        = .ready (.ok (.Tx ⟨fromA, some b.address, b.gas, b.gas_price,
            b.value, some b.data, b.nonce, condition⟩)) := by
  constructor
  · simp [fromBuilder, hs]
  · simp [fromBuilder, hs, pollPrepare]

/-- C3 witness: explicit-account builder at a concrete input. -/
theorem local_sign_no_query_witness :
    bLocal.sign = some (.Local 0x222 none) ∧
      ((fromBuilder bLocal).2 = [] ∧
        pollPrepare (fromBuilder bLocal).1
          = .ready (.ok (.Tx ⟨0x222, some bLocal.address, bLocal.gas,
              bLocal.gas_price, bLocal.value, some bLocal.data, bLocal.nonce,
              none⟩))) :=
  ⟨rfl, local_sign_no_query bLocal 0x222 none rfl⟩

/-- C4: in default-account mode preparation issues only the account-list
query; the produced request's sender is the first returned account, or the
zero address when the returned list is empty, and unspecified gas, gas
price and nonce are passed through as absent. -/
theorem default_account_mode (b : TransactionBuilder)
    (hs : b.sign = none) :
    (fromBuilder b).2 = [.accounts] ∧
      ∀ accts : List Address, b.web3.accounts = .ready (.ok accts) →
        pollPrepare (fromBuilder b).1
          = .ready (.ok (.Tx ⟨accts.headD 0, some b.address, b.gas,
              b.gas_price, b.value, some b.data, b.nonce, none⟩)) := by
  refine ⟨by simp [fromBuilder, hs], ?_⟩
  intro accts ha
  cases accts <;> simp [fromBuilder, hs, pollPrepare, ha, List.headD]

/-- C4 witness: scenario A at a concrete builder whose node returns the
account list `[0x111]`. -/
theorem default_account_mode_witness :
    builder0.sign = none ∧
      ((fromBuilder builder0).2 = [.accounts] ∧
        pollPrepare (fromBuilder builder0).1
          = .ready (.ok (.Tx ⟨[(0x111 : Address)].headD 0,
              some builder0.address, builder0.gas, builder0.gas_price,
              builder0.value, some builder0.data, builder0.nonce, none⟩))) :=
  ⟨rfl, (default_account_mode builder0 rfl).1,
    (default_account_mode builder0 rfl).2 [0x111] rfl⟩

/-- C6: in offline mode with gas not caller-supplied, the gas-estimate
query's call request has `from` the sender derived from the key, `to` the
target address, `value` and `data` the builder's value and call data, and
leaves the estimate call's own gas and gas price unset. -/
theorem offline_gas_estimate_call (b : TransactionBuilder) (key : SecretKey)
    (chain_id : Option Nat)
    (hs : b.sign = some (.Offline key chain_id))
    (hg : b.gas = none) :
    (fromBuilder b).2.head?
      = some (.estimateGas ⟨some key.addr, b.address, none, none, b.value,
          some b.data⟩) := by
  simp [fromBuilder, hs, hg, maybeParam]

/-- C6 witness: the gas-missing offline builder at a concrete input. -/
theorem offline_gas_estimate_call_witness :
    bOfflineNoGas.sign = some (.Offline keyA (some 1)) ∧
      bOfflineNoGas.gas = none ∧
      (fromBuilder bOfflineNoGas).2.head?
        = some (.estimateGas ⟨some keyA.addr, bOfflineNoGas.address, none,
            none, bOfflineNoGas.value, some bOfflineNoGas.data⟩) :=
  ⟨rfl, rfl, offline_gas_estimate_call bOfflineNoGas keyA (some 1) rfl rfl⟩

/-- C5: offline with chain id omitted, the resolved chain id is the integer
parsed from the node's network-version string; an unparseable string makes
preparation fail with a chain-id parse error, distinct from any
transport/RPC error, and no send call is issued. -/
theorem chain_id_from_network (b : TransactionBuilder) (key : SecretKey)
    (v : U256) (d : Bytes) (gm gpm nm : MaybeReady U256)
    (g gp n : U256) (s : List Char)
    (hs : b.sign = some (.Offline key none))
    (hshape : (fromBuilder b).1
      = .Raw key b.address v d gm gpm nm (.future b.web3.version))
    (hgm : pollMaybe gm = .ready (.ok g))
    (hgpm : pollMaybe gpm = .ready (.ok gp))
    (hnm : pollMaybe nm = .ready (.ok n))
    (hv : b.web3.version = .ready (.ok s)) :
    (∀ m, parseU64 s = some m →
       pollPrepare (fromBuilder b).1
         = .ready (.ok (.Raw ⟨⟨n, gp, g, b.address, v, d⟩, m, key⟩))) ∧
    (parseU64 s = none →
       pollPrepare (fromBuilder b).1 = .ready (.error (.parse s)) ∧
       ∀ sendFn : Node → Request → SendF Nat,
         pollWithSend (.Prepare (fromBuilder b).1 b.web3) sendFn
           = (.ready (.error (.parse s)),
              .Prepare (fromBuilder b).1 b.web3)) ∧
    (∀ e : Web3Error, ExecutionError.parse s ≠ .web3 e) := by
  have hpoll : pollPrepare (fromBuilder b).1
      = assembleRaw key b.address v d
          (.ready (.ok (g, gp, n, s))) := by
    have h4 : pollMaybe (MaybeReady.future b.web3.version)
        = .ready (.ok s) := by
      simp [pollMaybe, hv]
    rw [hshape]
    simp only [pollPrepare]
    rw [hgm, hgpm, hnm, h4, joinPoll_ready_ok]
  refine ⟨?_, ?_, ?_⟩
  · intro m hm
    rw [hpoll]
    simp [assembleRaw, hm, TransactionData.sign]
  · intro hnone
    have hp : pollPrepare (fromBuilder b).1 = .ready (.error (.parse s)) := by
      rw [hpoll]
      simp [assembleRaw, hnone]
    exact ⟨hp, fun sendFn => by simp [pollWithSend, hp]⟩
  · intro e h
    exact ExecutionError.noConfusion h

/-- C5 witness: scenario C — the network version `"3"` resolves to chain id
3, and `"not-a-number"` yields the parse error with no send call. -/
theorem chain_id_from_network_witness :
    pollPrepare (fromBuilder bOfflineNoChain).1
        = .ready (.ok (.Raw ⟨⟨5, 2, 21000, bOfflineNoChain.address, 0,
            bOfflineNoChain.data⟩, 3, keyA⟩)) ∧
      pollPrepare (fromBuilder bOfflineBadChain).1
          = .ready (.error (.parse notNum)) ∧
      pollWithSend (.Prepare (fromBuilder bOfflineBadChain).1
            bOfflineBadChain.web3) sendOk
        = (.ready (.error (.parse notNum)),
           .Prepare (fromBuilder bOfflineBadChain).1 bOfflineBadChain.web3) ∧
      ∀ e : Web3Error, ExecutionError.parse notNum ≠ .web3 e :=
  ⟨(chain_id_from_network bOfflineNoChain keyA 0 bOfflineNoChain.data
      (.ready 21000) (.ready 2) (.ready 5) 21000 2 5 ['3'] rfl rfl rfl rfl
      rfl rfl).1 3 (by decide),
    ((chain_id_from_network bOfflineBadChain keyA 0 bOfflineBadChain.data
        (.ready 21000) (.ready 2) (.ready 5) 21000 2 5 notNum rfl rfl rfl
        rfl rfl rfl).2.1 (by decide)).1,
    ((chain_id_from_network bOfflineBadChain keyA 0 bOfflineBadChain.data
        (.ready 21000) (.ready 2) (.ready 5) 21000 2 5 notNum rfl rfl rfl
        rfl rfl rfl).2.1 (by decide)).2 sendOk,
    (chain_id_from_network bOfflineBadChain keyA 0 bOfflineBadChain.data
        (.ready 21000) (.ready 2) (.ready 5) 21000 2 5 notNum rfl rfl rfl
        rfl rfl rfl).2.2⟩

/-- C7: while Preparing, successful pipeline resolution constructs the send
future, moves to Sending and polls it within the same poll invocation;
pipeline failure terminates immediately with that error and the Sending
state is never entered. -/
theorem execution_state_transition (β : Type) (p : PrepareFuture) (w : Node)
    (sendFn : Node → Request → SendF β) :
    (∀ tx, pollPrepare p = .ready (.ok tx) →
       pollWithSend (.Prepare p w) sendFn
         = (sendFn w tx, .Send (sendFn w tx))) ∧
    (∀ e, pollPrepare p = .ready (.error e) →
       pollWithSend (.Prepare p w) sendFn
           = (.ready (.error e), .Prepare p w) ∧
         ∀ f : SendF β, ExecutionState.Prepare p w ≠ .Send f) := by
  constructor
  · intro tx h
    simp [pollWithSend, h]
  · intro e h
    exact ⟨by simp [pollWithSend, h],
      fun f hf => ExecutionState.noConfusion hf⟩

/-- C7 witness: a ready pipeline is handed to the send function and the
state moves to Sending in the same poll; a failed pipeline returns its
error with the Sending state never entered. -/
theorem execution_state_transition_witness :
    pollWithSend (.Prepare pTx node0) sendOk
        = (sendOk node0 (.Tx ⟨0, none, none, none, none, none, none, none⟩),
           .Send (sendOk node0
             (.Tx ⟨0, none, none, none, none, none, none, none⟩))) ∧
      pollWithSend (.Prepare pErr node0) sendOk
          = (.ready (.error (.web3 ⟨3⟩)), .Prepare pErr node0) ∧
      ∀ f : SendF Nat, ExecutionState.Prepare pErr node0 ≠ .Send f :=
  ⟨(execution_state_transition Nat pTx node0 sendOk).1 _ rfl,
    ((execution_state_transition Nat pErr node0 sendOk).2 (.web3 ⟨3⟩) rfl).1,
    ((execution_state_transition Nat pErr node0 sendOk).2 (.web3 ⟨3⟩) rfl).2⟩

/-- C8: each builder configuration method returns the builder with exactly
its one field recorded, leaving the connection handle, target address, call
data and every other optional field unchanged; a repeated call overwrites
the earlier value and never errors. -/
theorem builder_setters_frame (b : TransactionBuilder) (s s0 : Sign)
    (g g0 gp gp0 v v0 n n0 : U256) :
    b.setSign s = { b with sign := some s } ∧
      (b.setSign s).setSign s0 = { b with sign := some s0 } ∧
      b.setGas g = { b with gas := some g } ∧
      (b.setGas g).setGas g0 = { b with gas := some g0 } ∧
      b.setGasPrice gp = { b with gas_price := some gp } ∧
      (b.setGasPrice gp).setGasPrice gp0
        = { b with gas_price := some gp0 } ∧
      b.setValue v = { b with value := some v } ∧
      (b.setValue v).setValue v0 = { b with value := some v0 } ∧
      b.setNonce n = { b with nonce := some n } ∧
      (b.setNonce n).setNonce n0 = { b with nonce := some n0 } :=
  ⟨rfl, rfl, rfl, rfl, rfl, rfl, rfl, rfl, rfl, rfl⟩

/-- C9: preparation is deterministic for fully specified offline
configurations — two builders agreeing on target, call data, value, key,
chain id, gas, gas price and nonce produce identical raw signed output,
whatever their nodes answer. -/
theorem offline_deterministic (b1 b2 : TransactionBuilder)
    (key : SecretKey) (cid g gp n : Nat)
    (h1s : b1.sign = some (.Offline key (some cid)))
    (h2s : b2.sign = some (.Offline key (some cid)))
    (h1g : b1.gas = some g) (h2g : b2.gas = some g)
    (h1gp : b1.gas_price = some gp) (h2gp : b2.gas_price = some gp)
    (h1n : b1.nonce = some n) (h2n : b2.nonce = some n)
    (hv : b1.value = b2.value) (ha : b1.address = b2.address)
    (hd : b1.data = b2.data) :
    pollPrepare (fromBuilder b1).1 = pollPrepare (fromBuilder b2).1 := by
  simp [fromBuilder, h1s, h2s, h1g, h2g, h1gp, h2gp, h1n, h2n, maybeParam,
    pollPrepare, pollMaybe, joinPoll_ready_ok, assembleRaw, hv, ha, hd]

/-- C9 witness: the same fully specified offline configuration against two
different nodes prepares to the same raw output. -/
theorem offline_deterministic_witness :
    pollPrepare (fromBuilder bOfflineFull).1
      = pollPrepare (fromBuilder bOfflineFull2).1 :=
  offline_deterministic bOfflineFull bOfflineFull2 keyA 1 21000 1000000000 5
    rfl rfl rfl rfl rfl rfl rfl rfl rfl rfl rfl

/-- C10: with a caller-supplied chain id, the round trip through its
decimal string representation is the identity, so the resolved chain id
equals the supplied value and the chain-id parse error is unreachable. -/
theorem chain_id_roundtrip (b : TransactionBuilder) (key : SecretKey)
    (cid : Nat) (hcid : cid < 2 ^ 64)
    (hs : b.sign = some (.Offline key (some cid))) :
    parseU64 (u64ToChars cid) = some cid ∧
      (∀ s, pollPrepare (fromBuilder b).1 ≠ .ready (.error (.parse s))) ∧
      (∀ raw, pollPrepare (fromBuilder b).1 = .ready (.ok (.Raw raw)) →
        raw.chainId = cid) := by
  have hshape : ∃ gm gpm nm : MaybeReady U256,
      (fromBuilder b).1
        = .Raw key b.address (b.value.getD 0) b.data gm gpm nm
            (.ready (u64ToChars cid)) := by
    simp only [fromBuilder, hs, Option.map_some, maybeParam]
    exact ⟨_, _, _, rfl⟩
  obtain ⟨gm, gpm, nm, hshape⟩ := hshape
  refine ⟨parseU64_u64ToChars cid hcid, ?_⟩
  rw [hshape]
  simp only [pollPrepare]
  rcases hj : joinPoll (pollMaybe gm) (pollMaybe gpm) (pollMaybe nm)
      (pollMaybe (.ready (u64ToChars cid))) with _ | e
  · constructor
    · intro s
      simp [assembleRaw]
    · intro raw h
      simp [assembleRaw] at h
  · rcases e with e | t
    · constructor
      · intro s
        simp [assembleRaw]
      · intro raw h
        simp [assembleRaw] at h
    · obtain ⟨g, gp, n, cs⟩ := t
      have hcs : cs = u64ToChars cid :=
        joinPoll_fourth_ok (pollMaybe gm) (pollMaybe gpm) (pollMaybe nm)
          (u64ToChars cid) g gp n cs (by simpa [pollMaybe] using hj)
      subst hcs
      constructor
      · intro s
        simp [assembleRaw, parseU64_u64ToChars cid hcid,
          TransactionData.sign]
      · intro raw h
        simp [assembleRaw, parseU64_u64ToChars cid hcid,
          TransactionData.sign] at h
        rw [← h]

/-- C10 witness: supplied chain id 1 round-trips and is the raw request's
chain id. -/
theorem chain_id_roundtrip_witness :
    (1 : Nat) < 2 ^ 64 ∧
      parseU64 (u64ToChars 1) = some 1 ∧
      (∀ s, pollPrepare (fromBuilder bOfflineFull).1
        ≠ .ready (.error (.parse s))) ∧
      ∀ raw, pollPrepare (fromBuilder bOfflineFull).1
          = .ready (.ok (.Raw raw)) → raw.chainId = 1 :=
  ⟨by decide, (chain_id_roundtrip bOfflineFull keyA 1 (by decide) rfl).1,
    (chain_id_roundtrip bOfflineFull keyA 1 (by decide) rfl).2.1,
    (chain_id_roundtrip bOfflineFull keyA 1 (by decide) rfl).2.2⟩

end Ethtx
